import Mathlib

/-!
Shallow embedding of `src/api_server.py` from the Distributed-Systems-Cluster
repository: the `Node` record, the `APIServer` registry with its
register/get/list/heartbeat operations, the health-monitor scan, and the HTTP
boundary handlers, together with theorems settling the specification claims.

Modelling conventions:
* Python wall-clock timestamps are modelled as rationals.
* `uuid.uuid4()` is modelled as a fresh-id supply: the server state carries a
  counter and each registration consumes it, so ids are natural numbers.
* The Python dict `self.nodes` is modelled as an insertion-ordered association
  list; insertion overwrites an existing key in place and otherwise appends,
  matching dict semantics.
* JSON values are an inductive type; `int()` conversion is modelled with
  Python's exception discipline: `ValueError` for unparsable strings,
  `TypeError` for null/array/object operands, truncation toward zero for
  numerics, and 0/1 for booleans.
-/

/-- Python exception kinds relevant to `add_node`. -/
inductive PyErr
  | valueError
  | typeError
deriving DecidableEq, Repr

/-- JSON values as delivered by `request.json`. -/
inductive Json
  | jnull
  | jbool (b : Bool)
  | jnum (q : ℚ)
  | jstr (s : String)
  | jarr (elems : List Json)
  | jobj (fields : List (String × Json))

/-- The three node states of the health state machine. -/
inductive NodeStatus
  | Ready
  | NotReady
  | Failed
deriving DecidableEq, Repr

/-- String form used in `to_dict` serialization. -/
def NodeStatus.toStr : NodeStatus → String
  | .Ready => "Ready"
  | .NotReady => "NotReady"
  | .Failed => "Failed"

/-- Position of a status along the forward chain Ready to NotReady to Failed. -/
def statusRank : NodeStatus → Nat
  | .Ready => 0
  | .NotReady => 1
  | .Failed => 2

/-- The `Node` object of `api_server.py`. -/
structure Node where
  node_id : Nat
  cpu_cores : Int
  available_cores : Int
  pods : List String
  status : NodeStatus
  last_heartbeat : ℚ
  container_id : Option Json

/-- `Node.__init__` with an explicitly supplied fresh id and current time. -/
def Node.init (cpu_cores : Int) (node_id : Nat) (now : ℚ) : Node :=
  { node_id := node_id
    cpu_cores := cpu_cores
    available_cores := cpu_cores
    pods := []
    status := .Ready
    last_heartbeat := now
    container_id := none }

/-- `Node.to_dict`. -/
def Node.to_dict (n : Node) : Json :=
  .jobj [ ("node_id", .jstr (toString n.node_id))
        , ("cpu_cores", .jnum (n.cpu_cores : ℚ))
        , ("available_cores", .jnum (n.available_cores : ℚ))
        , ("pods", .jarr (n.pods.map Json.jstr))
        , ("status", .jstr n.status.toStr)
        , ("last_heartbeat", .jnum n.last_heartbeat)
        , ("container_id", n.container_id.getD .jnull) ]

/-- Lookup in the association-list model of a Python dict keyed by node id. -/
def dictGet (k : Nat) (d : List (Nat × Node)) : Option Node :=
  (d.find? (fun p => p.1 == k)).map (fun p => p.2)

/-- Python dict assignment `d[k] = v`: overwrite in place when the key exists,
otherwise append at the end (dicts are insertion-ordered). -/
def dictInsert (k : Nat) (v : Node) (d : List (Nat × Node)) : List (Nat × Node) :=
  if d.any (fun p => p.1 == k) then
    d.map (fun p => if p.1 == k then (k, v) else p)
  else d ++ [(k, v)]

/-- The in-place mutation `self.nodes[node_id].last_heartbeat = now`. -/
def dictSetHeartbeat (k : Nat) (now : ℚ) (d : List (Nat × Node)) : List (Nat × Node) :=
  d.map (fun p => if p.1 == k then (p.1, { p.2 with last_heartbeat := now }) else p)

/-- The `APIServer` state: the node registry, the (never touched) pod map, the
fresh-id supply modelling `uuid.uuid4()`, and the heartbeat timeout. -/
structure APIServer where
  nodes : List (Nat × Node)
  pods : List (String × Json)
  next_id : Nat
  heartbeat_timeout : ℚ

/-- `APIServer.__init__` (the health-monitor thread start is modelled by the
explicit `monitorTick` steps below). -/
def APIServer.init : APIServer :=
  { nodes := [], pods := [], next_id := 0, heartbeat_timeout := 30 }

/-- `APIServer.register_node`: build a `Node`, attach the container id, insert
it into the registry, and return it. -/
def APIServer.register_node (s : APIServer) (cpu_cores : Int)
    (container_id : Option Json) (now : ℚ) : Node × APIServer :=
  let new_node := { Node.init cpu_cores s.next_id now with container_id := container_id }
  (new_node,
   { s with nodes := dictInsert new_node.node_id new_node s.nodes
            next_id := s.next_id + 1 })

/-- `APIServer.get_node`. -/
def APIServer.get_node (s : APIServer) (node_id : Nat) : Option Node :=
  dictGet node_id s.nodes

/-- `APIServer.list_nodes`. -/
def APIServer.list_nodes (s : APIServer) : List Json :=
  s.nodes.map (fun p => p.2.to_dict)

/-- `APIServer.update_node_heartbeat`. -/
def APIServer.update_node_heartbeat (s : APIServer) (node_id : Nat) (now : ℚ) :
    Bool × APIServer :=
  if s.nodes.any (fun p => p.1 == node_id) then
    (true, { s with nodes := dictSetHeartbeat node_id now s.nodes })
  else (false, s)

/-- The status transition applied by `_monitor_node_health` to one record:
only when `elapsed > timeout` does anything change, Ready moves to NotReady,
NotReady moves to Failed, and Failed has no branch. -/
def scanStatus (status : NodeStatus) (elapsed timeout : ℚ) : NodeStatus :=
  if elapsed > timeout then
    match status with
    | .Ready => .NotReady
    | .NotReady => .Failed
    | .Failed => .Failed
  else status

/-- One record's update in a scan tick taken at `now`. -/
def scanNode (now timeout : ℚ) (n : Node) : Node :=
  { n with status := scanStatus n.status (now - n.last_heartbeat) timeout }

/-- One iteration of the `while True` loop in `_monitor_node_health`:
`current_time = time.time()` is read once and every record of the snapshot
`list(self.nodes.items())` is updated. -/
def monitorTick (s : APIServer) (current_time : ℚ) : APIServer :=
  { s with nodes := s.nodes.map (fun p => (p.1, scanNode current_time s.heartbeat_timeout p.2)) }

/-- A sequence of scan ticks at the given times, in order. -/
def runTicks (s : APIServer) (times : List ℚ) : APIServer :=
  times.foldl monitorTick s

/-- A sequence of scan ticks followed at node level. -/
def runTicksNode (timeout : ℚ) (n : Node) (times : List ℚ) : Node :=
  times.foldl (fun m t => scanNode t timeout m) n

/-- An HTTP response: JSON body plus status code, as produced by `jsonify`. -/
structure HttpResponse where
  body : Json
  code : Nat

/-- The `jsonify`-style error body. -/
def errBody (msg : String) : Json := .jobj [("error", .jstr msg)]

/-- Truncation toward zero, the behaviour of Python `int()` on a number. -/
def truncRat (q : ℚ) : Int := if 0 ≤ q then q.floor else q.ceil

/-- Python `int()` applied to a string: optional surrounding whitespace, an
optional sign, then at least one digit; anything else raises `ValueError`
(worked out over the string's character list). -/
def pyIntOfString (s : String) : Except PyErr Int :=
  let t := (((s.data.dropWhile Char.isWhitespace).reverse).dropWhile Char.isWhitespace).reverse
  let sign : Int := if t.headD ' ' = '-' then -1 else 1
  let digits := if t.headD ' ' = '-' || t.headD ' ' = '+' then t.drop 1 else t
  if digits.length != 0 && digits.all Char.isDigit then
    .ok (sign * ((digits.foldl (fun acc c => acc * 10 + (c.toNat - 48)) 0 : Nat) : Int))
  else .error .valueError

/-- Python `int()` on a JSON value: numbers truncate toward zero, booleans are
0 or 1, strings parse or raise `ValueError`, and null/array/object raise
`TypeError`. -/
def pyInt : Json → Except PyErr Int
  | .jnum q => .ok (truncRat q)
  | .jbool b => .ok (if b then 1 else 0)
  | .jstr s => pyIntOfString s
  | .jnull => .error .typeError
  | .jarr _ => .error .typeError
  | .jobj _ => .error .typeError

/-- Field lookup in a JSON object body. -/
def lookupField (key : String) (fields : List (String × Json)) : Option Json :=
  (fields.find? (fun p => p.1 == key)).map (fun p => p.2)

/-- The `POST /nodes` handler `add_node`. The body is an optional JSON object
(`None` when the request carried no JSON). An exception escaping the `try`
block other than `ValueError` is returned as `Except.error` (Flask surfaces it
as a 500 server error, not a handler response). -/
def add_node (s : APIServer) (data : Option (List (String × Json))) (now : ℚ) :
    Except PyErr HttpResponse × APIServer :=
  match data with
  | none => (.ok ⟨errBody "CPU cores specification required", 400⟩, s)
  | some fields =>
    if fields.isEmpty || (lookupField "cpu_cores" fields).isNone then
      (.ok ⟨errBody "CPU cores specification required", 400⟩, s)
    else
      match lookupField "cpu_cores" fields with
      | none => (.ok ⟨errBody "CPU cores specification required", 400⟩, s)
      | some v =>
        match pyInt v with
        | .error .valueError => (.ok ⟨errBody "CPU cores must be a number", 400⟩, s)
        | .error .typeError => (.error .typeError, s)
        | .ok cpu_cores =>
          if cpu_cores ≤ 0 then
            (.ok ⟨errBody "CPU cores must be positive", 400⟩, s)
          else
            let container_id := lookupField "container_id" fields
            let res := s.register_node cpu_cores container_id now
            (.ok ⟨.jobj [ ("message", .jstr "Node added successfully")
                        , ("node_id", .jstr (toString res.1.node_id))
                        , ("cpu_cores", .jnum (res.1.cpu_cores : ℚ))], 201⟩, res.2)

/-- The `GET /nodes` handler. -/
def list_nodes (s : APIServer) : HttpResponse :=
  ⟨.jobj [("nodes", .jarr s.list_nodes), ("count", .jnum (s.list_nodes.length : ℚ))], 200⟩

/-- The `POST /nodes/:node_id/heartbeat` handler `update_heartbeat`. -/
def update_heartbeat (s : APIServer) (node_id : Nat) (now : ℚ) :
    HttpResponse × APIServer :=
  let res := s.update_node_heartbeat node_id now
  if res.1 then (⟨.jobj [("status", .jstr "Heartbeat received")], 200⟩, res.2)
  else (⟨errBody "Node not found", 404⟩, res.2)

/-- The registry-level operations, for invariant statements ranging over every
operation of the server. -/
inductive Op
  | register (cpu_cores : Int) (container_id : Option Json)
  | heartbeat (node_id : Nat)
  | getOp (node_id : Nat)
  | listOp
  | tick

/-- Effect of one operation on the server state at time `now` (reads leave the
state unchanged). -/
def applyOp (s : APIServer) (now : ℚ) : Op → APIServer
  | .register c cid => (s.register_node c cid now).2
  | .heartbeat id => (s.update_node_heartbeat id now).2
  | .getOp _ => s
  | .listOp => s
  | .tick => monitorTick s now

/-- For the stuck-in-NotReady scenario: each round is a heartbeat for
`node_id` at the first time of the pair followed by a scan tick at the second
time. -/
def hbTickRun (s : APIServer) (node_id : Nat) (pairs : List (ℚ × ℚ)) : APIServer :=
  pairs.foldl (fun st p => monitorTick (st.update_node_heartbeat node_id p.1).2 p.2) s

/-- A concrete fresh Ready node (4 cores, registered at time 0, id 0). -/
def sampleNode : Node := Node.init 4 0 0

/-- A concrete server holding `sampleNode`, with the default 30s timeout. -/
def sampleServer : APIServer :=
  { nodes := [(0, sampleNode)], pods := [], next_id := 1, heartbeat_timeout := 30 }

/-- A concrete node already in the NotReady state. -/
def sampleNotReadyNode : Node := { Node.init 4 0 0 with status := .NotReady }

/-- A concrete server holding `sampleNotReadyNode`. -/
def sampleNotReadyServer : APIServer :=
  { nodes := [(0, sampleNotReadyNode)], pods := [], next_id := 1, heartbeat_timeout := 30 }

theorem monitorTick_timeout (s : APIServer) (t : ℚ) :
    (monitorTick s t).heartbeat_timeout = s.heartbeat_timeout := rfl

theorem monitorTick_mem {s : APIServer} {t : ℚ} {id : Nat} {n : Node}
    (h : (id, n) ∈ s.nodes) :
    (id, scanNode t s.heartbeat_timeout n) ∈ (monitorTick s t).nodes := by
  have h2 := List.mem_map_of_mem
    (fun p : Nat × Node => (p.1, scanNode t s.heartbeat_timeout p.2)) h
  simpa [monitorTick] using h2

theorem runTicks_mem {s : APIServer} {id : Nat} {n : Node}
    (h : (id, n) ∈ s.nodes) (times : List ℚ) :
    (id, runTicksNode s.heartbeat_timeout n times) ∈ (runTicks s times).nodes := by
  induction times generalizing s n with
  | nil => simpa [runTicks, runTicksNode] using h
  | cons t ts ih =>
    have h1 := monitorTick_mem (t := t) h
    have h2 := ih (s := monitorTick s t) h1
    simpa [runTicks, runTicksNode, monitorTick_timeout] using h2

theorem scanStatus_rank_le (st : NodeStatus) (e tmo : ℚ) :
    statusRank st ≤ statusRank (scanStatus st e tmo) := by
  unfold scanStatus
  split
  · cases st <;> simp [statusRank]
  · exact le_refl _

theorem scanStatus_rank_step (st : NodeStatus) (e tmo : ℚ) :
    statusRank (scanStatus st e tmo) ≤ statusRank st + 1 := by
  unfold scanStatus
  split
  · cases st <;> simp [statusRank]
  · exact Nat.le_succ _

theorem runTicksNode_silent_ready {timeout t0 : ℚ} {n : Node}
    (hst : n.status = .Ready) (hhb : n.last_heartbeat = t0)
    {times : List ℚ} (h : ∀ t ∈ times, t - t0 ≤ timeout) :
    (runTicksNode timeout n times).status = .Ready ∧
    (runTicksNode timeout n times).last_heartbeat = t0 := by
  induction times generalizing n with
  | nil => exact ⟨hst, hhb⟩
  | cons t ts ih =>
    have hhead : ¬ (timeout < t - t0) := not_lt.mpr (h t (by simp))
    have hstep : (scanNode t timeout n).status = .Ready ∧
        (scanNode t timeout n).last_heartbeat = t0 := by
      constructor
      · simp [scanNode, scanStatus, hst, hhb, hhead]
      · simpa [scanNode] using hhb
    have htail : ∀ u ∈ ts, u - t0 ≤ timeout := fun u hu => h u (by simp [hu])
    simpa [runTicksNode] using ih hstep.1 hstep.2 htail

/-- C1: on a scan tick at time `now`, every record in the registry is carried
to the next state by exactly the specified transition table on
`elapsed = now - lastHeartbeat`: Ready stays Ready when elapsed is at most the
timeout and becomes NotReady when elapsed exceeds it, NotReady becomes Failed
exactly when elapsed exceeds the timeout, Failed is terminal, and no record
moves more than one step along the chain in a single tick. -/
theorem c1_scan_transition_table (s : APIServer) (now : ℚ) (id : Nat) (n : Node)
    (h : (id, n) ∈ s.nodes) :
    ∃ n', (id, n') ∈ (monitorTick s now).nodes ∧
      (n.status = .Ready → now - n.last_heartbeat ≤ s.heartbeat_timeout →
        n'.status = .Ready) ∧
      (n.status = .Ready → now - n.last_heartbeat > s.heartbeat_timeout →
        n'.status = .NotReady) ∧
      (n.status = .NotReady → now - n.last_heartbeat > s.heartbeat_timeout →
        n'.status = .Failed) ∧
      (n.status = .NotReady → now - n.last_heartbeat ≤ s.heartbeat_timeout →
        n'.status = .NotReady) ∧
      (n.status = .Failed → n'.status = .Failed) ∧
      statusRank n.status ≤ statusRank n'.status ∧
      statusRank n'.status ≤ statusRank n.status + 1 := by
  refine ⟨scanNode now s.heartbeat_timeout n, monitorTick_mem h, ?_, ?_, ?_, ?_, ?_, ?_, ?_⟩
  · intro hst he
    simp [scanNode, scanStatus, hst, not_lt.mpr he]
  · intro hst he
    simp [scanNode, scanStatus, hst, he]
  · intro hst he
    simp [scanNode, scanStatus, hst, he]
  · intro hst he
    simp [scanNode, scanStatus, hst, not_lt.mpr he]
  · intro hst
    simp only [scanNode, scanStatus, hst]
    split <;> rfl
  · simpa [scanNode] using scanStatus_rank_le n.status (now - n.last_heartbeat) s.heartbeat_timeout
  · simpa [scanNode] using scanStatus_rank_step n.status (now - n.last_heartbeat) s.heartbeat_timeout

/-- Witness for C1 at a concrete server: one Ready node with
`lastHeartbeat = 0` scanned at time 31 with timeout 30. -/
theorem c1_scan_transition_table_witness :
    ∃ n', (0, n') ∈ (monitorTick sampleServer 31).nodes ∧
      (sampleNode.status = .Ready →
        31 - sampleNode.last_heartbeat ≤ sampleServer.heartbeat_timeout →
        n'.status = .Ready) ∧
      (sampleNode.status = .Ready →
        31 - sampleNode.last_heartbeat > sampleServer.heartbeat_timeout →
        n'.status = .NotReady) ∧
      (sampleNode.status = .NotReady →
        31 - sampleNode.last_heartbeat > sampleServer.heartbeat_timeout →
        n'.status = .Failed) ∧
      (sampleNode.status = .NotReady →
        31 - sampleNode.last_heartbeat ≤ sampleServer.heartbeat_timeout →
        n'.status = .NotReady) ∧
      (sampleNode.status = .Failed → n'.status = .Failed) ∧
      statusRank sampleNode.status ≤ statusRank n'.status ∧
      statusRank n'.status ≤ statusRank sampleNode.status + 1 :=
  c1_scan_transition_table sampleServer 31 0 sampleNode (by simp [sampleServer])

/-- C2: a node registered at `t0` that never heartbeats again is Ready at
every scan tick with elapsed at most 30s, becomes NotReady at the first scan
tick whose elapsed exceeds 30s, and becomes Failed at the very next scan tick
after that: both transitions are gated by the single 30s threshold, with no
second independent grace period. -/
theorem c2_silent_node_timeline (s : APIServer) (t0 : ℚ) (id : Nat) (n : Node)
    (htimeout : s.heartbeat_timeout = 30)
    (hmem : (id, n) ∈ s.nodes) (hst : n.status = .Ready) (hhb : n.last_heartbeat = t0)
    (early : List ℚ) (hearly : ∀ t ∈ early, t - t0 ≤ 30)
    (t1 t2 : ℚ) (ht1 : t1 - t0 > 30) (ht2 : t2 > t1) :
    (∃ n', (id, n') ∈ (runTicks s early).nodes ∧ n'.status = .Ready) ∧
    (∃ n', (id, n') ∈ (runTicks s (early ++ [t1])).nodes ∧ n'.status = .NotReady) ∧
    (∃ n', (id, n') ∈ (runTicks s (early ++ [t1, t2])).nodes ∧ n'.status = .Failed) := by
  have hsilent := @runTicksNode_silent_ready 30 t0 n hst hhb early hearly
  have hmem0 := runTicks_mem hmem early
  rw [htimeout] at hmem0
  set m := runTicksNode 30 n early with hm
  have hmem1 := runTicks_mem hmem (early ++ [t1])
  have hmem2 := runTicks_mem hmem (early ++ [t1, t2])
  rw [htimeout] at hmem1 hmem2
  have hn1 : runTicksNode 30 n (early ++ [t1]) = scanNode t1 30 m := by
    simp [runTicksNode, hm]
  have hn2 : runTicksNode 30 n (early ++ [t1, t2]) = scanNode t2 30 (scanNode t1 30 m) := by
    simp [runTicksNode, hm]
  have hstat1 : (scanNode t1 30 m).status = .NotReady := by
    simp [scanNode, scanStatus, hsilent.1, hsilent.2, ht1]
  have hlhb1 : (scanNode t1 30 m).last_heartbeat = t0 := by
    simpa [scanNode] using hsilent.2
  have ht2' : t2 - t0 > 30 := by linarith
  have hstep2 : ∀ k : Node, k.status = .NotReady → k.last_heartbeat = t0 →
      (scanNode t2 30 k).status = .Failed := by
    intro k hk1 hk2
    simp [scanNode, scanStatus, hk1, hk2, ht2']
  have hstat2 : (scanNode t2 30 (scanNode t1 30 m)).status = .Failed :=
    hstep2 _ hstat1 hlhb1
  refine ⟨⟨m, hmem0, hsilent.1⟩, ⟨_, hmem1, ?_⟩, ⟨_, hmem2, ?_⟩⟩
  · rw [hn1] at hmem1 ⊢
    exact hstat1
  · rw [hn2] at hmem2 ⊢
    exact hstat2

/-- Witness for C2: one node registered at time 0, scanned at times 10 and 30
(still Ready), then at 31 (NotReady) and 36 (Failed), timeout 30. -/
theorem c2_silent_node_timeline_witness :
    (∃ n', (0, n') ∈ (runTicks sampleServer [10, 30]).nodes ∧ n'.status = .Ready) ∧
    (∃ n', (0, n') ∈ (runTicks sampleServer [10, 30, 31]).nodes ∧ n'.status = .NotReady) ∧
    (∃ n', (0, n') ∈ (runTicks sampleServer [10, 30, 31, 36]).nodes ∧ n'.status = .Failed) :=
  c2_silent_node_timeline sampleServer 0 0 sampleNode rfl (by simp [sampleServer]) rfl rfl
    [10, 30] (by intro t ht; fin_cases ht <;> norm_num)
    31 36 (by norm_num) (by norm_num)

theorem anyKey_eq_isSome (k : Nat) (d : List (Nat × Node)) :
    d.any (fun p => p.1 == k) = (dictGet k d).isSome := by
  induction d with
  | nil => rfl
  | cons a d ih =>
    by_cases ha : a.1 = k
    · simp [dictGet, ha]
    · have ha' : (a.1 == k) = false := by simpa using ha
      simp only [List.any_cons, ha', Bool.false_or, dictGet] at ih ⊢
      rw [List.find?_cons_of_neg _ (by simp [ha'])]
      exact ih

theorem dictGet_setHeartbeat_same (k : Nat) (now : ℚ) (d : List (Nat × Node)) :
    dictGet k (dictSetHeartbeat k now d) =
      (dictGet k d).map (fun n => { n with last_heartbeat := now }) := by
  induction d with
  | nil => rfl
  | cons a d ih =>
    by_cases ha : a.1 = k
    · simp [dictGet, dictSetHeartbeat, ha]
    · have ha' : (a.1 == k) = false := by simpa using ha
      simp only [dictSetHeartbeat, List.map_cons, ha', if_neg, Bool.false_eq_true,
        not_false_eq_true, dictGet] at ih ⊢
      rw [List.find?_cons_of_neg _ (by simp [ha']), List.find?_cons_of_neg _ (by simp [ha'])]
      exact ih

theorem dictGet_setHeartbeat_other (k j : Nat) (now : ℚ) (d : List (Nat × Node))
    (hjk : j ≠ k) :
    dictGet j (dictSetHeartbeat k now d) = dictGet j d := by
  induction d with
  | nil => rfl
  | cons a d ih =>
    simp only [dictSetHeartbeat, List.map_cons] at ih ⊢
    by_cases haj : a.1 = j
    · rw [if_neg (by simp [haj, hjk])]
      simp only [dictGet]
      rw [List.find?_cons_of_pos _ (by simp [haj]), List.find?_cons_of_pos _ (by simp [haj])]
    · simp only [dictGet] at ih ⊢
      rw [List.find?_cons_of_neg _ (by by_cases h : a.1 = k <;> simp [h, haj, hjk.symm]),
        List.find?_cons_of_neg _ (by simp [haj])]
      exact ih

/-- C3: Heartbeat on a known id returns 200 with body status Heartbeat
received, sets that record's lastHeartbeat to the current time and changes
nothing else (the record keeps every other field, every other record is
untouched, and the rest of the server state is untouched); Heartbeat on an
unknown id returns 404 with body error Node not found and leaves the whole
server state unchanged. -/
theorem c3_heartbeat_contract (s : APIServer) (id : Nat) (now : ℚ) :
    (∀ n, dictGet id s.nodes = some n →
      update_heartbeat s id now =
        (⟨.jobj [("status", .jstr "Heartbeat received")], 200⟩,
         { s with nodes := dictSetHeartbeat id now s.nodes }) ∧
      dictGet id (dictSetHeartbeat id now s.nodes) =
        some { n with last_heartbeat := now } ∧
      (∀ j, j ≠ id → dictGet j (dictSetHeartbeat id now s.nodes) = dictGet j s.nodes)) ∧
    (dictGet id s.nodes = none →
      update_heartbeat s id now = (⟨errBody "Node not found", 404⟩, s)) := by
  constructor
  · intro n hn
    have hguard : s.nodes.any (fun p => p.1 == id) = true := by
      rw [anyKey_eq_isSome, hn]
      rfl
    refine ⟨?_, ?_, ?_⟩
    · simp [update_heartbeat, APIServer.update_node_heartbeat, hguard]
    · rw [dictGet_setHeartbeat_same, hn]
      rfl
    · intro j hj
      exact dictGet_setHeartbeat_other id j now s.nodes hj
  · intro hn
    have hguard : s.nodes.any (fun p => p.1 == id) = false := by
      rw [anyKey_eq_isSome, hn]
      rfl
    simp [update_heartbeat, APIServer.update_node_heartbeat, hguard]

/-- Witness for C3: heartbeat at time 7 for the known id 0 and the unknown
id 5 on the concrete one-node server. -/
theorem c3_heartbeat_contract_witness :
    (update_heartbeat sampleServer 0 7 =
      (⟨.jobj [("status", .jstr "Heartbeat received")], 200⟩,
       { sampleServer with nodes := dictSetHeartbeat 0 7 sampleServer.nodes }) ∧
     dictGet 0 (dictSetHeartbeat 0 7 sampleServer.nodes) =
       some { sampleNode with last_heartbeat := 7 } ∧
     (∀ j, j ≠ 0 → dictGet j (dictSetHeartbeat 0 7 sampleServer.nodes) =
       dictGet j sampleServer.nodes)) ∧
    update_heartbeat sampleServer 5 7 = (⟨errBody "Node not found", 404⟩, sampleServer) :=
  ⟨(c3_heartbeat_contract sampleServer 0 7).1 sampleNode rfl,
   (c3_heartbeat_contract sampleServer 5 7).2 rfl⟩

theorem dictInsert_fresh (k : Nat) (v : Node) (d : List (Nat × Node))
    (h : ∀ p ∈ d, p.1 ≠ k) :
    dictInsert k v d = d ++ [(k, v)] := by
  unfold dictInsert
  rw [if_neg]
  simp only [List.any_eq_true, beq_iff_eq, not_exists]
  intro p
  rintro ⟨hp, hpk⟩
  exact h p hp hpk

theorem dictGet_append_self (k : Nat) (v : Node) (d : List (Nat × Node))
    (h : ∀ p ∈ d, p.1 ≠ k) :
    dictGet k (d ++ [(k, v)]) = some v := by
  induction d with
  | nil => simp [dictGet]
  | cons a d ih =>
    simp only [List.cons_append, dictGet] at ih ⊢
    rw [List.find?_cons_of_neg _ (by simpa using h a (List.mem_cons_self a d))]
    exact ih (fun p hp => h p (by simp [hp]))

/-- C4: for positive totalCores, Register always succeeds: it hands out the
next fresh id, distinct from every id already in the registry, inserts a
record with status Ready, cpu and available cores equal to the argument,
lastHeartbeat equal to the current time, no assigned work, and the given
executor reference; an immediate Get returns exactly the new record, an
immediate List contains its serialization, and the freshness invariant is
preserved. -/
theorem c4_register_contract (s : APIServer) (c : Int) (cid : Option Json) (now : ℚ)
    (hc : 0 < c) (hfresh : ∀ p ∈ s.nodes, p.1 < s.next_id) :
    ((s.register_node c cid now).1.node_id = s.next_id ∧
     ∀ p ∈ s.nodes, p.1 ≠ (s.register_node c cid now).1.node_id) ∧
    (s.register_node c cid now).1.status = .Ready ∧
    (s.register_node c cid now).1.cpu_cores = c ∧
    (s.register_node c cid now).1.available_cores = c ∧
    (s.register_node c cid now).1.last_heartbeat = now ∧
    (s.register_node c cid now).1.pods = [] ∧
    (s.register_node c cid now).1.container_id = cid ∧
    (s.register_node c cid now).2.get_node (s.register_node c cid now).1.node_id =
      some (s.register_node c cid now).1 ∧
    (s.register_node c cid now).1.to_dict ∈ (s.register_node c cid now).2.list_nodes ∧
    (∀ p ∈ (s.register_node c cid now).2.nodes, p.1 < (s.register_node c cid now).2.next_id) := by
  have hne : ∀ p ∈ s.nodes, p.1 ≠ s.next_id := fun p hp => Nat.ne_of_lt (hfresh p hp)
  have happ : (s.register_node c cid now).2.nodes =
      s.nodes ++ [(s.next_id, (s.register_node c cid now).1)] :=
    dictInsert_fresh s.next_id _ s.nodes hne
  refine ⟨⟨rfl, hne⟩, rfl, rfl, rfl, rfl, rfl, rfl, ?_, ?_, ?_⟩
  · show dictGet s.next_id (s.register_node c cid now).2.nodes = _
    rw [happ]
    exact dictGet_append_self _ _ _ hne
  · have hmem : ((s.register_node c cid now).1.node_id, (s.register_node c cid now).1) ∈
        (s.register_node c cid now).2.nodes := by
      rw [happ]
      exact List.mem_append_right _ (List.mem_singleton.mpr rfl)
    exact List.mem_map_of_mem (fun p => p.2.to_dict) hmem
  · intro p hp
    rw [happ] at hp
    rcases List.mem_append.mp hp with hin | hin
    · exact Nat.lt_succ_of_lt (hfresh p hin)
    · rw [List.mem_singleton.mp hin]
      exact Nat.lt_succ_self _

/-- Witness for C4: registering a 2-core node with no container id at time 50
on the concrete one-node server. -/
theorem c4_register_contract_witness :
    ((sampleServer.register_node 2 none 50).1.node_id = sampleServer.next_id ∧
     ∀ p ∈ sampleServer.nodes, p.1 ≠ (sampleServer.register_node 2 none 50).1.node_id) ∧
    (sampleServer.register_node 2 none 50).1.status = .Ready ∧
    (sampleServer.register_node 2 none 50).1.cpu_cores = 2 ∧
    (sampleServer.register_node 2 none 50).1.available_cores = 2 ∧
    (sampleServer.register_node 2 none 50).1.last_heartbeat = 50 ∧
    (sampleServer.register_node 2 none 50).1.pods = [] ∧
    (sampleServer.register_node 2 none 50).1.container_id = none ∧
    (sampleServer.register_node 2 none 50).2.get_node
        (sampleServer.register_node 2 none 50).1.node_id =
      some (sampleServer.register_node 2 none 50).1 ∧
    (sampleServer.register_node 2 none 50).1.to_dict ∈
      (sampleServer.register_node 2 none 50).2.list_nodes ∧
    (∀ p ∈ (sampleServer.register_node 2 none 50).2.nodes,
      p.1 < (sampleServer.register_node 2 none 50).2.next_id) :=
  c4_register_contract sampleServer 2 none 50 (by norm_num)
    (by
      intro p hp
      simp only [sampleServer, List.mem_singleton] at hp
      simp [hp, sampleServer])

theorem dictSetHeartbeat_mem {k : Nat} {now : ℚ} {d : List (Nat × Node)} {id : Nat} {n : Node}
    (h : (id, n) ∈ d) :
    (id, if id = k then { n with last_heartbeat := now } else n) ∈ dictSetHeartbeat k now d := by
  have hmem := List.mem_map_of_mem
    (fun p : Nat × Node => if p.1 == k then (p.1, { p.2 with last_heartbeat := now }) else p) h
  by_cases hik : id = k
  · simpa [dictSetHeartbeat, hik] using hmem
  · simpa [dictSetHeartbeat, hik] using hmem

/-- C6: under every server operation (register, heartbeat, get, list, scan
tick), and assuming the id-freshness invariant of the registration counter,
every record currently in the registry is still present afterwards, its status
rank never decreases (Ready to NotReady to Failed is never reversed), and any
operation other than a scan tick leaves its status exactly unchanged — in
particular a heartbeat never restores a NotReady or Failed node to Ready and
only the health monitor mutates status. -/
theorem c6_status_forward_only (s : APIServer) (now : ℚ) (op : Op) (id : Nat) (n : Node)
    (hfresh : ∀ p ∈ s.nodes, p.1 < s.next_id)
    (h : (id, n) ∈ s.nodes) :
    ∃ n', (id, n') ∈ (applyOp s now op).nodes ∧
      statusRank n.status ≤ statusRank n'.status ∧
      (op ≠ Op.tick → n'.status = n.status) := by
  cases op with
  | register c cid =>
    refine ⟨n, ?_, le_refl _, fun _ => rfl⟩
    have hne : ∀ p ∈ s.nodes, p.1 ≠ s.next_id := fun p hp => Nat.ne_of_lt (hfresh p hp)
    have happ : (s.register_node c cid now).2.nodes =
        s.nodes ++ [(s.next_id, (s.register_node c cid now).1)] :=
      dictInsert_fresh s.next_id _ s.nodes hne
    show (id, n) ∈ (s.register_node c cid now).2.nodes
    rw [happ]
    exact List.mem_append_left _ h
  | heartbeat j =>
    by_cases hg : s.nodes.any (fun p => p.1 == j) = true
    · refine ⟨if id = j then { n with last_heartbeat := now } else n, ?_, ?_, ?_⟩
      · show _ ∈ (s.update_node_heartbeat j now).2.nodes
        simp only [APIServer.update_node_heartbeat, hg, if_true]
        exact dictSetHeartbeat_mem h
      · by_cases hij : id = j <;> simp [hij]
      · intro _
        by_cases hij : id = j <;> simp [hij]
    · refine ⟨n, ?_, le_refl _, fun _ => rfl⟩
      show (id, n) ∈ (s.update_node_heartbeat j now).2.nodes
      simp only [APIServer.update_node_heartbeat, hg]
      simpa using h
  | getOp j => exact ⟨n, h, le_refl _, fun _ => rfl⟩
  | listOp => exact ⟨n, h, le_refl _, fun _ => rfl⟩
  | tick =>
    refine ⟨scanNode now s.heartbeat_timeout n, monitorTick_mem h, ?_, ?_⟩
    · simpa [scanNode] using
        scanStatus_rank_le n.status (now - n.last_heartbeat) s.heartbeat_timeout
    · intro hcontra
      exact absurd rfl hcontra

/-- Witness for C6 at the heartbeat operation on the concrete one-node
server. -/
theorem c6_status_forward_only_witness :
    ∃ n', (0, n') ∈ (applyOp sampleServer 7 (Op.heartbeat 0)).nodes ∧
      statusRank sampleNode.status ≤ statusRank n'.status ∧
      (Op.heartbeat 0 ≠ Op.tick → n'.status = sampleNode.status) :=
  c6_status_forward_only sampleServer 7 (Op.heartbeat 0) 0 sampleNode
    (by
      intro p hp
      simp only [sampleServer, List.mem_singleton] at hp
      simp [hp, sampleServer])
    (by simp [sampleServer])

/-- C8: a node whose status is NotReady and whose agent heartbeats in time
before every subsequent scan tick (so elapsed is at most the timeout at every
tick) remains NotReady across any number of heartbeat-then-tick rounds: the
fresh heartbeats block the NotReady-to-Failed transition, and since no
transition back to Ready exists, the node stays stuck in NotReady. -/
theorem c8_notready_stuck (s : APIServer) (id : Nat) (n : Node)
    (hmem : (id, n) ∈ s.nodes) (hst : n.status = .NotReady)
    (pairs : List (ℚ × ℚ)) (hp : ∀ p ∈ pairs, p.2 - p.1 ≤ s.heartbeat_timeout) :
    ∃ n', (id, n') ∈ (hbTickRun s id pairs).nodes ∧ n'.status = .NotReady := by
  induction pairs generalizing s n with
  | nil => exact ⟨n, hmem, hst⟩
  | cons pr rest ih =>
    obtain ⟨u, t⟩ := pr
    have hg : s.nodes.any (fun p => p.1 == id) = true :=
      List.any_eq_true.mpr ⟨(id, n), hmem, by simp⟩
    have h1 : (id, { n with last_heartbeat := u }) ∈ (s.update_node_heartbeat id u).2.nodes := by
      simp only [APIServer.update_node_heartbeat, hg, if_true]
      simpa using @dictSetHeartbeat_mem id u s.nodes id n hmem
    have hto : (s.update_node_heartbeat id u).2.heartbeat_timeout = s.heartbeat_timeout := by
      unfold APIServer.update_node_heartbeat
      split <;> rfl
    have h2 := monitorTick_mem (t := t) h1
    rw [hto] at h2
    have hstat : (scanNode t s.heartbeat_timeout { n with last_heartbeat := u }).status
        = .NotReady := by
      have hle : ¬ (s.heartbeat_timeout < t - u) := not_lt.mpr (hp (u, t) (by simp))
      simp [scanNode, scanStatus, hst, hle]
    have hrest : ∀ p ∈ rest,
        p.2 - p.1 ≤ (monitorTick (s.update_node_heartbeat id u).2 t).heartbeat_timeout := by
      intro p hp2
      rw [monitorTick_timeout, hto]
      exact hp p (by simp [hp2])
    have hres := ih (monitorTick (s.update_node_heartbeat id u).2 t) _ h2 hstat hrest
    simpa only [hbTickRun, List.foldl_cons] using hres

/-- Witness for C8: the concrete NotReady node heartbeats at times 31 and 60,
with scan ticks at 33 and 62 (each elapsed 2s, timeout 30s). -/
theorem c8_notready_stuck_witness :
    ∃ n', (0, n') ∈ (hbTickRun sampleNotReadyServer 0 [(31, 33), (60, 62)]).nodes ∧
      n'.status = .NotReady :=
  c8_notready_stuck sampleNotReadyServer 0 sampleNotReadyNode
    (by simp [sampleNotReadyServer]) rfl [(31, 33), (60, 62)]
    (by
      intro p hp
      fin_cases hp <;> norm_num [sampleNotReadyServer])

theorem dictInsert_mem (k : Nat) (v : Node) (d : List (Nat × Node)) :
    (k, v) ∈ dictInsert k v d := by
  unfold dictInsert
  split
  · rename_i hany
    obtain ⟨p, hp, hpk⟩ := List.any_eq_true.mp hany
    have hmap := List.mem_map_of_mem (fun p : Nat × Node => if p.1 == k then (k, v) else p) hp
    simpa [hpk] using hmap
  · exact List.mem_append_right _ (List.mem_singleton.mpr rfl)

theorem truncRat_intCast (c : Int) : truncRat (c : ℚ) = c := by
  unfold truncRat
  have hf : ((c : ℚ)).floor = c := by
    rw [Rat.floor_def']
    simp [Rat.num_intCast, Rat.den_intCast]
  have hcl : ((c : ℚ)).ceil = c := by
    unfold Rat.ceil
    simp [Rat.num_intCast, Rat.den_intCast]
  split <;> simp [hf, hcl]

/-- C9: the registry-level register_node performs no validation at all: for
every integer cpu_cores, including zero and negatives, it inserts a record
with status Ready and availableCores equal to that argument; the positivity
check exists only in the HTTP handler, which rejects the same value with a
400 when it is non-positive. -/
theorem c9_register_node_no_validation (s : APIServer) (c : Int) (cid : Option Json) (now : ℚ) :
    ((s.register_node c cid now).1.status = .Ready ∧
     (s.register_node c cid now).1.cpu_cores = c ∧
     (s.register_node c cid now).1.available_cores = c ∧
     ((s.register_node c cid now).1.node_id, (s.register_node c cid now).1) ∈
       (s.register_node c cid now).2.nodes) ∧
    (c ≤ 0 →
      add_node s (some [("cpu_cores", Json.jnum (c : ℚ))]) now =
        (.ok ⟨errBody "CPU cores must be positive", 400⟩, s)) := by
  constructor
  · exact ⟨rfl, rfl, rfl, dictInsert_mem _ _ _⟩
  · intro hc0
    simp [add_node, lookupField, pyInt, truncRat_intCast, hc0]

/-- Witness for C9: registering with cpu_cores equal to -3 succeeds at the
registry level while the HTTP handler rejects the same value. -/
theorem c9_register_node_no_validation_witness :
    ((APIServer.init.register_node (-3) none 0).1.status = .Ready ∧
     (APIServer.init.register_node (-3) none 0).1.cpu_cores = -3 ∧
     (APIServer.init.register_node (-3) none 0).1.available_cores = -3 ∧
     ((APIServer.init.register_node (-3) none 0).1.node_id,
       (APIServer.init.register_node (-3) none 0).1) ∈
       (APIServer.init.register_node (-3) none 0).2.nodes) ∧
    add_node APIServer.init (some [("cpu_cores", Json.jnum ((-3 : Int) : ℚ))]) 0 =
      (.ok ⟨errBody "CPU cores must be positive", 400⟩, APIServer.init) :=
  ⟨(c9_register_node_no_validation APIServer.init (-3) none 0).1,
   (c9_register_node_no_validation APIServer.init (-3) none 0).2 (by norm_num)⟩

/-- Counterexample to C5: a request whose cpu_cores field is JSON null — a
non-numeric value — is not answered with a 400 client error: `int(None)`
raises TypeError, which the handler's `except ValueError` does not catch, so
no handler response is produced at all (the framework surfaces a 500 server
error instead). -/
theorem c5_counterexample_null_cpu_cores :
    add_node APIServer.init (some [("cpu_cores", Json.jnull)]) 0 =
      (.error .typeError, APIServer.init) ∧
    ∀ r : HttpResponse,
      (add_node APIServer.init (some [("cpu_cores", Json.jnull)]) 0).1 ≠ Except.ok r := by
  refine ⟨rfl, ?_⟩
  intro r h
  rw [show (add_node APIServer.init (some [("cpu_cores", Json.jnull)]) 0).1 =
      Except.error PyErr.typeError from rfl] at h
  exact Except.noConfusion h

/-- C5 (amended): a request whose cpu_cores field is missing, is a
non-numeric string, or is a numeric value truncating to at most zero receives
a 400 client error and leaves the registry unchanged; a null, array, or
object cpu_cores instead escapes the handler as an uncaught TypeError (no 400
response), and a boolean is silently coerced by int(). -/
theorem c5_validation_rejections (s : APIServer) (now : ℚ) (fields : List (String × Json)) :
    (add_node s none now = (.ok ⟨errBody "CPU cores specification required", 400⟩, s)) ∧
    (lookupField "cpu_cores" fields = none →
      add_node s (some fields) now =
        (.ok ⟨errBody "CPU cores specification required", 400⟩, s)) ∧
    (∀ str, lookupField "cpu_cores" fields = some (.jstr str) →
      pyIntOfString str = .error .valueError →
      add_node s (some fields) now =
        (.ok ⟨errBody "CPU cores must be a number", 400⟩, s)) ∧
    (∀ q, lookupField "cpu_cores" fields = some (.jnum q) → truncRat q ≤ 0 →
      add_node s (some fields) now =
        (.ok ⟨errBody "CPU cores must be positive", 400⟩, s)) := by
  refine ⟨rfl, ?_, ?_, ?_⟩
  · intro h
    simp [add_node, h]
  · intro str h hv
    have hne : fields.isEmpty = false := by
      cases fields with
      | nil => simp [lookupField] at h
      | cons a l => rfl
    simp [add_node, h, hne, pyInt, hv]
  · intro q h hq
    have hne : fields.isEmpty = false := by
      cases fields with
      | nil => simp [lookupField] at h
      | cons a l => rfl
    simp [add_node, h, hne, pyInt, hq]

/-- Witness for the amended C5: a body without cpu_cores, the string "abc",
and the numeric value -3 are each rejected with a 400 and no state change. -/
theorem c5_validation_rejections_witness :
    add_node APIServer.init (some [("other", Json.jnum 4)]) 0 =
      (.ok ⟨errBody "CPU cores specification required", 400⟩, APIServer.init) ∧
    add_node APIServer.init (some [("cpu_cores", Json.jstr "abc")]) 0 =
      (.ok ⟨errBody "CPU cores must be a number", 400⟩, APIServer.init) ∧
    add_node APIServer.init (some [("cpu_cores", Json.jnum (mkRat (-3) 1))]) 0 =
      (.ok ⟨errBody "CPU cores must be positive", 400⟩, APIServer.init) :=
  ⟨(c5_validation_rejections APIServer.init 0 [("other", Json.jnum 4)]).2.1 rfl,
   (c5_validation_rejections APIServer.init 0 [("cpu_cores", Json.jstr "abc")]).2.2.1
     "abc" rfl rfl,
   (c5_validation_rejections APIServer.init 0 [("cpu_cores", Json.jnum (mkRat (-3) 1))]).2.2.2
     (mkRat (-3) 1) rfl (by decide)⟩

/-- Counterexample to C10: the numeric non-integer cpu_cores value 1/2 is not
accepted with a 201 — int() truncates it to 0, which fails the positivity
check, so the request is rejected with a 400 and no record is created. -/
theorem c10_counterexample_half :
    (mkRat 1 2).den ≠ 1 ∧
    add_node APIServer.init (some [("cpu_cores", Json.jnum (mkRat 1 2))]) 0 =
      (.ok ⟨errBody "CPU cores must be positive", 400⟩, APIServer.init) :=
  ⟨by decide, rfl⟩

/-- C10 (amended): a numeric non-integer cpu_cores is truncated toward zero
by int() rather than rejected as non-integral; whenever the truncation is
positive the request is accepted with a 201 carrying the truncated value and
a record with that cpu_cores is registered (when the truncation is at most
zero the request is instead rejected by the positivity check, as 1/2 shows).
-/
theorem c10_float_truncation (s : APIServer) (now : ℚ) (q : ℚ)
    (hq : q.den ≠ 1) (hpos : 0 < truncRat q) :
    add_node s (some [("cpu_cores", Json.jnum q)]) now =
      (.ok ⟨.jobj [ ("message", .jstr "Node added successfully")
                  , ("node_id", .jstr (toString s.next_id))
                  , ("cpu_cores", .jnum ((truncRat q : Int) : ℚ))], 201⟩,
       (s.register_node (truncRat q) none now).2) ∧
    (s.register_node (truncRat q) none now).1.cpu_cores = truncRat q ∧
    ((s.register_node (truncRat q) none now).1.node_id,
     (s.register_node (truncRat q) none now).1) ∈
      (s.register_node (truncRat q) none now).2.nodes := by
  refine ⟨?_, rfl, dictInsert_mem _ _ _⟩
  simp [add_node, lookupField, pyInt, not_le.mpr hpos]
  exact ⟨rfl, rfl⟩

/-- Witness for the amended C10: cpu_cores 5/2 is accepted with 201 and
truncated to 2. -/
theorem c10_float_truncation_witness :
    add_node APIServer.init (some [("cpu_cores", Json.jnum (mkRat 5 2))]) 0 =
      (.ok ⟨.jobj [ ("message", .jstr "Node added successfully")
                  , ("node_id", .jstr (toString APIServer.init.next_id))
                  , ("cpu_cores", .jnum ((truncRat (mkRat 5 2) : Int) : ℚ))], 201⟩,
       (APIServer.init.register_node (truncRat (mkRat 5 2)) none 0).2) ∧
    (APIServer.init.register_node (truncRat (mkRat 5 2)) none 0).1.cpu_cores =
      truncRat (mkRat 5 2) ∧
    ((APIServer.init.register_node (truncRat (mkRat 5 2)) none 0).1.node_id,
     (APIServer.init.register_node (truncRat (mkRat 5 2)) none 0).1) ∈
      (APIServer.init.register_node (truncRat (mkRat 5 2)) none 0).2.nodes :=
  c10_float_truncation APIServer.init 0 (mkRat 5 2) (by decide) (by decide)
